import Mathlib

/-!
Shallow embedding of the Structural Risk Assessment Engine of
`backend/services/physics_simulation_service.py` (class `PhysicsSimulationService`).

Conventions of the embedding:
* Python floats are modelled as exact rationals (`ℚ`); the arithmetic of the
  engine is plain field arithmetic, so every formula carries over verbatim.
* Python `float('inf')` (the "unbounded" safety-factor sentinel) is modelled as
  `⊤ : WithTop ℚ`; finite values embed through the coercion, and the order on
  `WithTop ℚ` matches IEEE comparisons against infinity on finite values.
* Python dicts holding heterogeneous result payloads are modelled as Lean
  structures with one field per dict key.
* `datetime.now()` and `np.random` draws are inputs of the computation in the
  embedding: they are packaged in an `Env` value passed to the entry point, so
  that two invocations of the service are two applications at two `Env` values.
* The service guards its two optional native libraries with try/except import;
  the embedding models the configuration in which neither `FEniCS` nor
  `PyChrono` is importable, so `_perform_fea_analysis` reduces to
  `_simplified_fea_analysis` and `_run_collapse_simulation` reduces to
  `_simplified_collapse_simulation`.  The random stress sampler
  `_calculate_stress` of the FEniCS branch is modelled separately.
-/

namespace PhysicsSim

/-- Building descriptor handed to `analyze_structural_damage` as `building_data`
(dict built in `api/routes/physics_simulation.py` from `AssessmentCreate`). -/
structure BuildingData where
  building_type : String
  number_of_floors : Nat
  primary_material : String
  year_built : Int
  damage_types : List String
deriving DecidableEq

/-- One damage annotation: `issueType` plus the `position` dict with keys x, y. -/
structure Annotation where
  issueType : String
  posX : ℚ
  posY : ℚ
deriving DecidableEq

/-- Material property record produced by `_get_material_properties`.
The Python dicts carry `compressive_strength` for concrete, brick and wood but
not for steel, and `yield_strength` for steel only; the two optional fields
model exactly that key layout. -/
structure MaterialProps where
  elastic_modulus : ℚ
  compressive_strength : Option ℚ
  yield_strength : Option ℚ
  tensile_strength : ℚ
  density : ℚ
deriving DecidableEq

/-- The `base_properties` table of `_get_material_properties` (lines 198-225),
including the `.get(material, base_properties["concrete"])` fallback. -/
def base_properties (material : String) : MaterialProps :=
  if material = "concrete" then
    { elastic_modulus := 30000, compressive_strength := some 30,
      yield_strength := none, tensile_strength := 3, density := 2400 }
  else if material = "steel" then
    { elastic_modulus := 200000, compressive_strength := none,
      yield_strength := some 250, tensile_strength := 400, density := 7850 }
  else if material = "brick" then
    { elastic_modulus := 10000, compressive_strength := some 15,
      yield_strength := none, tensile_strength := 3/2, density := 1800 }
  else if material = "wood" then
    { elastic_modulus := 12000, compressive_strength := some 40,
      yield_strength := none, tensile_strength := 80, density := 500 }
  else
    { elastic_modulus := 30000, compressive_strength := some 30,
      yield_strength := none, tensile_strength := 3, density := 2400 }

/-- Age degradation factor `max(0.3, 1.0 - (age * 0.01))`.  The same formula is
written out at line 228 (in `_get_material_properties`) and at line 693 (in
`_simplified_fea_analysis`); both call sites use this one definition. -/
def age_factor (age : Int) : ℚ :=
  max (3/10) (1 - (age : ℚ) * (1/100))

/-- Embedding of `_get_material_properties` (lines 194-233): look the material
up in the base table, then multiply the keys `elastic_modulus`,
`compressive_strength`, `tensile_strength` by the age factor when present.
Note that the key loop at line 229 does not list `yield_strength`, so the
steel yield strength is returned unscaled, and `density` is never scaled. -/
def _get_material_properties (material : String) (age : Int) : MaterialProps :=
  let props := base_properties material
  let f := age_factor age
  { props with
    elastic_modulus := props.elastic_modulus * f
    compressive_strength := props.compressive_strength.map (fun s => s * f)
    tensile_strength := props.tensile_strength * f }

/-- Critical point entries built at line 702: the annotation position paired
with the scalar stress estimate. -/
structure CriticalPoint where
  locX : ℚ
  locY : ℚ
  stress_level : ℚ
deriving DecidableEq

/-- Result dict of the FEA step (either branch of `_perform_fea_analysis`). -/
structure FEAResults where
  stress_distribution : List ℚ
  strain_distribution : List ℚ
  critical_points : List CriticalPoint
  safety_factor : WithTop ℚ
  failure_probability : ℚ
  analysis_type : String
deriving DecidableEq

/-- Nominal stress of `_simplified_fea_analysis` (lines 688-696):
`base_stress * damage_factor / age_factor` with `base_stress = floors * 5.0`
and `damage_factor = 1.0 + len(annotations) * 0.2`. -/
def simplifiedStress (bd : BuildingData) (annCount : Nat) (nowYear : Int) : ℚ :=
  let age : Int := nowYear - bd.year_built
  let base_stress : ℚ := (bd.number_of_floors : ℚ) * 5
  let damage_factor : ℚ := 1 + (annCount : ℚ) * (1/5)
  base_stress * damage_factor / age_factor age

/-- Embedding of `_simplified_fea_analysis` (lines 686-706).  `nowYear` stands
for `datetime.now().year`.  The safety factor is `30.0 / stress` guarded by
`if stress > 0`, with `float('inf')` modelled as `⊤`. -/
def _simplified_fea_analysis (bd : BuildingData) (annotations : List Annotation)
    (nowYear : Int) : FEAResults :=
  let stress := simplifiedStress bd annotations.length nowYear
  { stress_distribution := List.replicate 10 stress
    strain_distribution := List.replicate 10 (stress / 30000)
    critical_points := annotations.map (fun a => ⟨a.posX, a.posY, stress⟩)
    safety_factor := if stress > 0 then ((30 / stress : ℚ) : WithTop ℚ) else ⊤
    failure_probability := min 1 (max 0 ((stress - 20) / 10))
    analysis_type := "Simplified_FEA" }

/-- One collapse frame: a time stamp and the recorded component positions. -/
structure CollapseFrame where
  time : ℚ
  positions : List (ℚ × ℚ × ℚ)
deriving DecidableEq

/-- One debris-pattern entry (line 719). -/
structure DebrisEntry where
  time : ℚ
  debris_count : Nat
  impactX : ℚ
  impactY : ℚ
  impactRadius : ℚ
deriving DecidableEq

/-- One safety zone dict: center, radius, and qualitative level. -/
structure SafetyZone where
  x : ℚ
  y : ℚ
  radius : ℚ
  safety_level : String
deriving DecidableEq

/-- Result dict of the collapse step (either branch). -/
structure CollapseSim where
  collapse_sequence : List CollapseFrame
  failure_time : ℚ
  debris_pattern : List DebrisEntry
  safety_zones : List SafetyZone
  simulation_type : String
deriving DecidableEq

/-- The value `np.linspace(0, b, n)` for `n ≥ 2`: `n` evenly spaced samples
from `0` to `b`, endpoints included. -/
def linspace0 (b : ℚ) (n : Nat) : List ℚ :=
  (List.range n).map (fun i => b * (i : ℚ) / ((n : ℚ) - 1))

/-- Embedding of `_simplified_collapse_simulation` (lines 708-726):
`failure_time = max(1.0, 10.0 - damage_count * 2.0)`, one debris entry, and the
three fixed safety zones scaled by the floor count, listed safe, caution,
danger as in the source. -/
def _simplified_collapse_simulation (bd : BuildingData)
    (annotations : List Annotation) : CollapseSim :=
  let floors := bd.number_of_floors
  let damage_count := annotations.length
  let failure_time : ℚ := max 1 (10 - (damage_count : ℚ) * 2)
  { collapse_sequence := (linspace0 failure_time 100).map (fun t => ⟨t, []⟩)
    failure_time := failure_time
    debris_pattern := [⟨failure_time, floors, 0, 0, (floors : ℚ) * 5⟩]
    safety_zones :=
      [ ⟨0, 0, (floors : ℚ) * 10, "safe"⟩,
        ⟨0, 0, (floors : ℚ) * 5, "caution"⟩,
        ⟨0, 0, (floors : ℚ) * 2, "danger"⟩ ]
    simulation_type := "Simplified_Physics" }

/-- Risk metrics dict returned by `_calculate_risk_metrics`. -/
structure RiskMetrics where
  risk_level : String
  risk_score : Nat
  safety_factor : WithTop ℚ
  failure_probability : ℚ
  confidence : String
deriving DecidableEq

/-- Embedding of `_calculate_risk_metrics` (lines 545-601).  The Python body
initialises `risk_score = 0` and accumulates the four `+=` blocks; the final
value of that accumulation is written here as the four-term sum.  `nowYear`
stands for `datetime.now().year` at line 551. -/
def _calculate_risk_metrics (bd : BuildingData) (fea : FEAResults)
    (collapse : CollapseSim) (nowYear : Int) : RiskMetrics :=
  let building_age : Int := nowYear - bd.year_built
  let damage_severity : Nat := bd.damage_types.length
  let safety_factor : WithTop ℚ := fea.safety_factor
  let failure_time : ℚ := collapse.failure_time
  let risk_score : Nat :=
    (if building_age > 50 then 30 else if building_age > 30 then 20
     else if building_age > 20 then 10 else 0)
    + min 40 (damage_severity * 10)
    + (if safety_factor < ((1 : ℚ) : WithTop ℚ) then 20
       else if safety_factor < ((3/2 : ℚ) : WithTop ℚ) then 15
       else if safety_factor < ((2 : ℚ) : WithTop ℚ) then 10 else 0)
    + (if failure_time < 2 then 10 else if failure_time < 5 then 5 else 0)
  let risk_level : String :=
    if risk_score ≥ 80 then "critical"
    else if risk_score ≥ 60 then "high"
    else if risk_score ≥ 40 then "medium"
    else "low"
  { risk_level := risk_level
    risk_score := risk_score
    safety_factor := safety_factor
    failure_probability := fea.failure_probability
    confidence := if fea.analysis_type = "FEniCS_FEA" then "high" else "medium" }

/-- The value `np.max(stress)` for a nonempty sample list; NumPy raises on an
empty array, so the theorems below restrict to nonempty lists and the `[]` case
of this total model is outside the embedded domain. -/
def npMax : List ℚ → ℚ
  | [] => 0
  | a :: rest => rest.foldl max a

/-- Embedding of `_calculate_safety_factor` (lines 312-316, FEniCS branch):
`material_props.get("compressive_strength", 30)` divided by the maximal sample
stress when that maximum is positive, else `float('inf')`. -/
def _calculate_safety_factor (stress : List ℚ) (material_props : MaterialProps) :
    WithTop ℚ :=
  let max_stress := npMax stress
  let allowable_stress := material_props.compressive_strength.getD 30
  if max_stress > 0 then ((allowable_stress / max_stress : ℚ) : WithTop ℚ) else ⊤

/-- Predicate for a list of draws the call `np.random.uniform(0, max_stress, 100)`
at line 286 can produce: 100 samples, each inside the half-open interval,
modelled with closed bounds.  The draws come from the process random state,
not from the function arguments. -/
def uniformStressDraws (material_props : MaterialProps) (draws : List ℚ) : Prop :=
  draws.length = 100 ∧
    ∀ x ∈ draws, 0 ≤ x ∧ x ≤ material_props.compressive_strength.getD 30

instance (p : MaterialProps) (d : List ℚ) : Decidable (uniformStressDraws p d) := by
  unfold uniformStressDraws; infer_instance

/-- Embedding of `_calculate_stress` (lines 281-286): the displacement solution
is ignored and the returned stress distribution is exactly the list of uniform
random draws, here an explicit input standing for the consumed random state. -/
def _calculate_stress (material_props : MaterialProps) (draws : List ℚ) : List ℚ :=
  let _max_stress := material_props.compressive_strength.getD 30
  draws

/-- Data interpolated by `_generate_engineering_report` (lines 603-673) into
the report string, in template order.  The rendering to one string is a pure
formatting of these fields; the embedding keeps the data, including the
`datetime.now().strftime` stamp taken at rendering time (`generated`) and the
heading of the recommendation block chosen from the risk level. -/
structure EngineeringReport where
  generated : String
  building_type : String
  floors : Nat
  material : String
  age : Int
  damage_types : List String
  safety_factor : WithTop ℚ
  failure_probability : ℚ
  critical_points_count : Nat
  failure_time : ℚ
  debris_pattern_count : Nat
  safety_zones_count : Nat
  risk_level : String
  risk_score : Nat
  confidence : String
  recommendation : String
deriving DecidableEq

/-- Embedding of `_generate_engineering_report`: collects the interpolated
values; `reportTime` stands for the `datetime.now().strftime(...)` call at
line 609. -/
def _generate_engineering_report (bd : BuildingData) (fea : FEAResults)
    (collapse : CollapseSim) (risk : RiskMetrics) (nowYear : Int)
    (reportTime : String) : EngineeringReport :=
  { generated := reportTime
    building_type := bd.building_type
    floors := bd.number_of_floors
    material := bd.primary_material
    age := nowYear - bd.year_built
    damage_types := bd.damage_types
    safety_factor := fea.safety_factor
    failure_probability := fea.failure_probability
    critical_points_count := fea.critical_points.length
    failure_time := collapse.failure_time
    debris_pattern_count := collapse.debris_pattern.length
    safety_zones_count := collapse.safety_zones.length
    risk_level := risk.risk_level
    risk_score := risk.risk_score
    confidence := risk.confidence
    recommendation :=
      if risk.risk_level = "critical" then "CRITICAL RISK - IMMEDIATE ACTION REQUIRED"
      else if risk.risk_level = "high" then "HIGH RISK - URGENT ATTENTION REQUIRED"
      else if risk.risk_level = "medium" then "MEDIUM RISK - CAUTION ADVISED"
      else "LOW RISK - ROUTINE MONITORING" }

/-- Payload of `_prepare_simulation_video_data` (lines 675-684). -/
structure VideoData where
  collapse_sequence : List CollapseFrame
  debris_pattern : List DebrisEntry
  safety_zones : List SafetyZone
  simulation_duration : ℚ
  frame_rate : Nat
  video_resolution : String
deriving DecidableEq

/-- Embedding of `_prepare_simulation_video_data`. -/
def _prepare_simulation_video_data (collapse : CollapseSim) : VideoData :=
  { collapse_sequence := collapse.collapse_sequence
    debris_pattern := collapse.debris_pattern
    safety_zones := collapse.safety_zones
    simulation_duration := 10
    frame_rate := 30
    video_resolution := "1920x1080" }

/-- Ambient inputs a single invocation of `analyze_structural_damage` reads
from the process environment: the wall-clock year used in age computations,
the `strftime` stamp placed in the report, and the `isoformat` stamp placed in
the `generated_at` field at line 85.  Two independent invocations are two
applications of the entry point at two `Env` values. -/
structure Env where
  nowYear : Int
  reportTime : String
  generatedAt : String
deriving DecidableEq

/-- The dict returned by `analyze_structural_damage` (lines 77-86), one field
per key. -/
structure AnalysisResult where
  risk_level : String
  engineering_analysis : EngineeringReport
  fea_results : FEAResults
  collapse_simulation : CollapseSim
  risk_metrics : RiskMetrics
  simulation_video_data : VideoData
  confidence : String
  generated_at : String
deriving DecidableEq

/-- Embedding of `analyze_structural_damage` (lines 40-90) in the configuration
where neither optional native library imports, so step 1 runs
`_simplified_fea_analysis` and step 2 runs `_simplified_collapse_simulation`
(the fallbacks at lines 95-97 and 157-159). -/
def analyze_structural_damage (bd : BuildingData) (annotations : List Annotation)
    (env : Env) : AnalysisResult :=
  let fea := _simplified_fea_analysis bd annotations env.nowYear
  let collapse := _simplified_collapse_simulation bd annotations
  let risk := _calculate_risk_metrics bd fea collapse env.nowYear
  { risk_level := risk.risk_level
    engineering_analysis :=
      _generate_engineering_report bd fea collapse risk env.nowYear env.reportTime
    fea_results := fea
    collapse_simulation := collapse
    risk_metrics := risk
    simulation_video_data := _prepare_simulation_video_data collapse
    confidence := risk.confidence
    generated_at := env.generatedAt }

/-- Risk metrics of the deterministic core pipeline (steps 1-3 of
`analyze_structural_damage`) as a function of descriptor, annotations and
wall-clock year. -/
def assessment (bd : BuildingData) (annotations : List Annotation)
    (nowYear : Int) : RiskMetrics :=
  _calculate_risk_metrics bd (_simplified_fea_analysis bd annotations nowYear)
    (_simplified_collapse_simulation bd annotations) nowYear

/-- Age contribution of the risk score as the specification words it. -/
def ageContribution (building_age : Int) : Nat :=
  if building_age > 50 then 30 else if building_age > 30 then 20
  else if building_age > 20 then 10 else 0

/-- Damage contribution of the risk score as the specification words it. -/
def damageContribution (damage_type_count : Nat) : Nat :=
  min 40 (damage_type_count * 10)

/-- Safety-factor contribution of the risk score as the specification words it. -/
def sfContribution (sf : WithTop ℚ) : Nat :=
  if sf < ((1 : ℚ) : WithTop ℚ) then 20
  else if sf < ((3/2 : ℚ) : WithTop ℚ) then 15
  else if sf < ((2 : ℚ) : WithTop ℚ) then 10 else 0

/-- Failure-time contribution of the risk score as the specification words it. -/
def ftContribution (ft : ℚ) : Nat :=
  if ft < 2 then 10 else if ft < 5 then 5 else 0

/-- Risk level from the summed score as the specification words it. -/
def levelOf (score : Nat) : String :=
  if score ≥ 80 then "critical" else if score ≥ 60 then "high"
  else if score ≥ 40 then "medium" else "low"

/-- Safety factor as the specification words it: strength over stress when the
stress is positive, else the unbounded sentinel. -/
def claimedSafetyFactor (strength stress : ℚ) : WithTop ℚ :=
  if stress > 0 then ((strength / stress : ℚ) : WithTop ℚ) else ⊤

/-- Radius of the first zone carrying a given safety level, if any. -/
def zoneRadius (zones : List SafetyZone) (level : String) : Option ℚ :=
  (zones.find? (fun z => z.safety_level == level)).map (fun z => z.radius)

theorem risk_score_decomp (bd : BuildingData) (fea : FEAResults)
    (collapse : CollapseSim) (nowYear : Int) :
    (_calculate_risk_metrics bd fea collapse nowYear).risk_score
      = ageContribution (nowYear - bd.year_built)
        + damageContribution bd.damage_types.length
        + sfContribution fea.safety_factor
        + ftContribution collapse.failure_time := rfl

theorem risk_level_decomp (bd : BuildingData) (fea : FEAResults)
    (collapse : CollapseSim) (nowYear : Int) :
    (_calculate_risk_metrics bd fea collapse nowYear).risk_level
      = levelOf ((_calculate_risk_metrics bd fea collapse nowYear).risk_score) := rfl

theorem ageContribution_le (a : Int) : ageContribution a ≤ 30 := by
  unfold ageContribution; split_ifs <;> omega

theorem damageContribution_le (n : Nat) : damageContribution n ≤ 40 := by
  unfold damageContribution; omega

theorem sfContribution_le (sf : WithTop ℚ) : sfContribution sf ≤ 20 := by
  unfold sfContribution; split_ifs <;> omega

theorem ftContribution_le (ft : ℚ) : ftContribution ft ≤ 10 := by
  unfold ftContribution; split_ifs <;> omega

theorem sfContribution_anti {s t : WithTop ℚ} (h : s ≤ t) :
    sfContribution t ≤ sfContribution s := by
  have i1 : t < ((1 : ℚ) : WithTop ℚ) → s < ((1 : ℚ) : WithTop ℚ) :=
    fun ht => h.trans_lt ht
  have i2 : t < ((3/2 : ℚ) : WithTop ℚ) → s < ((3/2 : ℚ) : WithTop ℚ) :=
    fun ht => h.trans_lt ht
  have i3 : t < ((2 : ℚ) : WithTop ℚ) → s < ((2 : ℚ) : WithTop ℚ) :=
    fun ht => h.trans_lt ht
  unfold sfContribution
  split_ifs <;> first | omega | tauto

theorem ftContribution_anti {s t : ℚ} (h : s ≤ t) :
    ftContribution t ≤ ftContribution s := by
  have i1 : t < 2 → s < 2 := fun ht => h.trans_lt ht
  have i2 : t < 5 → s < 5 := fun ht => h.trans_lt ht
  unfold ftContribution
  split_ifs <;> first | omega | tauto

theorem age_factor_pos (a : Int) : 0 < age_factor a :=
  lt_of_lt_of_le (by norm_num) (le_max_left _ _)

theorem simplifiedStress_pos (bd : BuildingData) (n : Nat) (y : Int)
    (h : 1 ≤ bd.number_of_floors) : 0 < simplifiedStress bd n y := by
  unfold simplifiedStress
  have hf : (1 : ℚ) ≤ (bd.number_of_floors : ℚ) := by exact_mod_cast h
  have h1 : (0 : ℚ) < (bd.number_of_floors : ℚ) * 5 := by linarith
  have h2 : (0 : ℚ) < 1 + (n : ℚ) * (1/5) := by positivity
  exact div_pos (mul_pos h1 h2) (age_factor_pos _)

theorem simplifiedStress_succ_le (bd : BuildingData) (n : Nat) (y : Int) :
    simplifiedStress bd n y ≤ simplifiedStress bd (n + 1) y := by
  unfold simplifiedStress
  have hA : (0 : ℚ) ≤ (bd.number_of_floors : ℚ) * 5 := by positivity
  have hF := age_factor_pos (y - bd.year_built)
  apply (div_le_div_iff_of_pos_right hF).mpr
  apply mul_le_mul_of_nonneg_left _ hA
  push_cast
  linarith

theorem sfa_safety_factor_eq (bd : BuildingData) (anns : List Annotation)
    (y : Int) :
    (_simplified_fea_analysis bd anns y).safety_factor
      = claimedSafetyFactor 30 (simplifiedStress bd anns.length y) := rfl

theorem collapse_failure_time_eq (bd : BuildingData) (anns : List Annotation) :
    (_simplified_collapse_simulation bd anns).failure_time
      = max 1 (10 - (anns.length : ℚ) * 2) := rfl

/-- C2: for every descriptor, safety factor and failure time, the risk score is
the sum of the four independently capped contributions (age up to 30, damage
`min(40, count*10)`, safety factor up to 20, failure time up to 10), and the
risk level is critical at score 80 and above, high at 60, medium at 40, else
low. -/
theorem C2_risk_score_is_sum_of_capped_contributions (bd : BuildingData)
    (fea : FEAResults) (collapse : CollapseSim) (nowYear : Int) :
    (_calculate_risk_metrics bd fea collapse nowYear).risk_score
      = ageContribution (nowYear - bd.year_built)
        + damageContribution bd.damage_types.length
        + sfContribution fea.safety_factor
        + ftContribution collapse.failure_time
    ∧ (_calculate_risk_metrics bd fea collapse nowYear).risk_level
      = levelOf ((_calculate_risk_metrics bd fea collapse nowYear).risk_score)
    ∧ ageContribution (nowYear - bd.year_built) ≤ 30
    ∧ damageContribution bd.damage_types.length ≤ 40
    ∧ sfContribution fea.safety_factor ≤ 20
    ∧ ftContribution collapse.failure_time ≤ 10 :=
  ⟨risk_score_decomp bd fea collapse nowYear,
   risk_level_decomp bd fea collapse nowYear,
   ageContribution_le _, damageContribution_le _, sfContribution_le _,
   ftContribution_le _⟩

/-- C10: the simplified collapse simulation failure time is
`max(1.0, 10.0 - 2.0 * annotation_count)` and always lies in [1, 10] seconds. -/
theorem C10_failure_time_formula_and_bounds (bd : BuildingData)
    (annotations : List Annotation) :
    (_simplified_collapse_simulation bd annotations).failure_time
      = max 1 (10 - (annotations.length : ℚ) * 2)
    ∧ 1 ≤ (_simplified_collapse_simulation bd annotations).failure_time
    ∧ (_simplified_collapse_simulation bd annotations).failure_time ≤ 10 := by
  refine ⟨rfl, ?_, ?_⟩
  · rw [collapse_failure_time_eq]; exact le_max_left _ _
  · rw [collapse_failure_time_eq]
    have hn : (0 : ℚ) ≤ (annotations.length : ℚ) := Nat.cast_nonneg _
    apply max_le (by norm_num)
    linarith

/-- C3 counterexample: for steel aged 10 years the lookup leaves the yield
strength at its base value 250, not scaled by the degradation factor 0.9 as
the claim (all strength fields scaled) requires. -/
theorem C3_counterexample :
    (_get_material_properties "steel" 10).yield_strength = some 250
    ∧ some ((250 : ℚ) * age_factor 10)
        ≠ (_get_material_properties "steel" 10).yield_strength := by
  constructor
  · simp [_get_material_properties, base_properties]
  · have h : (_get_material_properties "steel" 10).yield_strength = some 250 := by
      simp [_get_material_properties, base_properties]
    rw [h]
    have hf : age_factor 10 = 9/10 := by
      unfold age_factor; rw [max_eq_right] <;> norm_num
    rw [hf]
    norm_num

/-- C3 amended: the lookup scales the elastic modulus, the compressive
strength (when the material carries that field) and the tensile strength by
`max(0.3, 1.0 - age * 0.01)`, leaves the yield strength and the density
unchanged, and the factor at age 200 is exactly 0.3. -/
theorem C3_age_degradation (material : String) (age : Int) :
    (_get_material_properties material age).elastic_modulus
      = (base_properties material).elastic_modulus * age_factor age
    ∧ (_get_material_properties material age).compressive_strength
      = (base_properties material).compressive_strength.map (fun s => s * age_factor age)
    ∧ (_get_material_properties material age).tensile_strength
      = (base_properties material).tensile_strength * age_factor age
    ∧ (_get_material_properties material age).yield_strength
      = (base_properties material).yield_strength
    ∧ (_get_material_properties material age).density
      = (base_properties material).density
    ∧ age_factor 200 = 3/10 := by
  refine ⟨rfl, rfl, rfl, rfl, rfl, ?_⟩
  norm_num [age_factor]

/-- C6: for all inputs, including an empty annotation list, the computed
failure probability lies in [0, 1] and the computed risk score lies in
[0, 100]. -/
theorem C6_probability_and_score_bounds (bd : BuildingData)
    (annotations : List Annotation) (nowYear : Int) :
    0 ≤ (assessment bd annotations nowYear).failure_probability
    ∧ (assessment bd annotations nowYear).failure_probability ≤ 1
    ∧ 0 ≤ (assessment bd annotations nowYear).risk_score
    ∧ (assessment bd annotations nowYear).risk_score ≤ 100 := by
  refine ⟨?_, ?_, Nat.zero_le _, ?_⟩
  · show (0 : ℚ) ≤ min 1 (max 0 _)
    exact le_min (by norm_num) (le_max_left 0 _)
  · show min (1 : ℚ) (max 0 _) ≤ 1
    exact min_le_left _ _
  · show (_calculate_risk_metrics bd _ _ nowYear).risk_score ≤ 100
    rw [risk_score_decomp]
    have h1 := ageContribution_le (nowYear - bd.year_built)
    have h2 := damageContribution_le bd.damage_types.length
    have h3 := sfContribution_le (_simplified_fea_analysis bd annotations nowYear).safety_factor
    have h4 := ftContribution_le (_simplified_collapse_simulation bd annotations).failure_time
    omega

/-- Descriptor used as a concrete well-formed building in counterexamples and
witnesses: a one-floor brick building assessed in its construction year. -/
def bdBrick : BuildingData :=
  { building_type := "residential", number_of_floors := 1,
    primary_material := "brick", year_built := 2026, damage_types := [] }

/-- C4 counterexample: for a one-floor brick building with no annotations the
simplified branch reports safety factor 30/5 = 6, while the declared primary
material (brick, degradation factor 1 at age 0) has compressive strength 15,
so the claimed value 15/5 = 3 differs from the reported 6. -/
theorem C4_counterexample :
    (_simplified_fea_analysis bdBrick [] 2026).safety_factor = ((6 : ℚ) : WithTop ℚ)
    ∧ (_get_material_properties "brick" 0).compressive_strength = some 15
    ∧ simplifiedStress bdBrick 0 2026 = 5
    ∧ ((15 : ℚ) / 5) ≠ (6 : ℚ) := by
  have hstress : simplifiedStress bdBrick 0 2026 = 5 := by
    unfold simplifiedStress age_factor bdBrick
    norm_num
  refine ⟨?_, ?_, hstress, by norm_num⟩
  · rw [sfa_safety_factor_eq]
    show claimedSafetyFactor 30 (simplifiedStress bdBrick 0 2026) = _
    rw [hstress]
    unfold claimedSafetyFactor
    norm_num
  · have hf : age_factor 0 = 1 := by unfold age_factor; norm_num
    simp [_get_material_properties, base_properties, hf]

/-- C4 amended: in the simplified branch the safety factor is the fixed
reference strength 30.0 (not the declared primary material strength) divided
by the nominal stress when that stress is positive, else the unbounded
sentinel; in the FEniCS branch it is `props.get("compressive_strength", 30)`
divided by the maximal sampled stress under the same guard.  In both branches
zero stress yields the sentinel instead of raising. -/
theorem C4_safety_factor_guarded (bd : BuildingData) (anns : List Annotation)
    (y : Int) (stressList : List ℚ) (props : MaterialProps)
    (h : stressList ≠ []) :
    (_simplified_fea_analysis bd anns y).safety_factor
      = claimedSafetyFactor 30 (simplifiedStress bd anns.length y)
    ∧ _calculate_safety_factor stressList props
      = claimedSafetyFactor (props.compressive_strength.getD 30) (npMax stressList) :=
  ⟨rfl, rfl⟩

theorem C4_safety_factor_guarded_witness :
    ([10] : List ℚ) ≠ []
    ∧ ((_simplified_fea_analysis bdBrick [] 2026).safety_factor
        = claimedSafetyFactor 30 (simplifiedStress bdBrick ([] : List Annotation).length 2026)
      ∧ _calculate_safety_factor [10] (base_properties "concrete")
        = claimedSafetyFactor ((base_properties "concrete").compressive_strength.getD 30)
            (npMax [10])) :=
  ⟨by simp, C4_safety_factor_guarded bdBrick [] 2026 [10] (base_properties "concrete") (by simp)⟩

/-- C7: for floor count at least 1, the simplified collapse simulation emits
exactly three zones centered at the footprint center, tagged danger, caution
and safe with radii floors*2, floors*5 and floors*10, and those radii are
strictly ordered danger < caution < safe. -/
theorem C7_three_ordered_safety_zones (bd : BuildingData)
    (annotations : List Annotation) (h : 1 ≤ bd.number_of_floors) :
    ((_simplified_collapse_simulation bd annotations).safety_zones).length = 3
    ∧ (∀ z ∈ (_simplified_collapse_simulation bd annotations).safety_zones,
        z.x = 0 ∧ z.y = 0)
    ∧ zoneRadius ((_simplified_collapse_simulation bd annotations).safety_zones) "danger"
        = some ((bd.number_of_floors : ℚ) * 2)
    ∧ zoneRadius ((_simplified_collapse_simulation bd annotations).safety_zones) "caution"
        = some ((bd.number_of_floors : ℚ) * 5)
    ∧ zoneRadius ((_simplified_collapse_simulation bd annotations).safety_zones) "safe"
        = some ((bd.number_of_floors : ℚ) * 10)
    ∧ (bd.number_of_floors : ℚ) * 2 < (bd.number_of_floors : ℚ) * 5
    ∧ (bd.number_of_floors : ℚ) * 5 < (bd.number_of_floors : ℚ) * 10 := by
  have hf : (1 : ℚ) ≤ (bd.number_of_floors : ℚ) := by exact_mod_cast h
  refine ⟨rfl, ?_, ?_, ?_, ?_, by linarith, by linarith⟩
  · intro z hz
    simp only [_simplified_collapse_simulation, List.mem_cons, List.not_mem_nil,
      or_false] at hz
    rcases hz with h1 | h1 | h1 <;> subst h1 <;> exact ⟨rfl, rfl⟩
  · simp [zoneRadius, _simplified_collapse_simulation, List.find?]
  · simp [zoneRadius, _simplified_collapse_simulation, List.find?]
  · simp [zoneRadius, _simplified_collapse_simulation, List.find?]

theorem C7_three_ordered_safety_zones_witness :
    1 ≤ bdBrick.number_of_floors
    ∧ (((_simplified_collapse_simulation bdBrick []).safety_zones).length = 3
      ∧ (∀ z ∈ (_simplified_collapse_simulation bdBrick []).safety_zones,
          z.x = 0 ∧ z.y = 0)
      ∧ zoneRadius ((_simplified_collapse_simulation bdBrick []).safety_zones) "danger"
          = some ((bdBrick.number_of_floors : ℚ) * 2)
      ∧ zoneRadius ((_simplified_collapse_simulation bdBrick []).safety_zones) "caution"
          = some ((bdBrick.number_of_floors : ℚ) * 5)
      ∧ zoneRadius ((_simplified_collapse_simulation bdBrick []).safety_zones) "safe"
          = some ((bdBrick.number_of_floors : ℚ) * 10)
      ∧ (bdBrick.number_of_floors : ℚ) * 2 < (bdBrick.number_of_floors : ℚ) * 5
      ∧ (bdBrick.number_of_floors : ℚ) * 5 < (bdBrick.number_of_floors : ℚ) * 10) :=
  ⟨by decide, C7_three_ordered_safety_zones bdBrick [] (by decide)⟩

/-- Concrete five-floor residential descriptor, primed with concrete as the
declared material. -/
def bdConcrete : BuildingData :=
  { building_type := "residential", number_of_floors := 5,
    primary_material := "concrete", year_built := 1995, damage_types := [] }

/-- The same descriptor with the declared material replaced by steel. -/
def bdSteel : BuildingData :=
  { building_type := "residential", number_of_floors := 5,
    primary_material := "steel", year_built := 1995, damage_types := [] }

/-- C9: the simplified analysis branch reads only the floor count, the build
year and the annotation count, so two requests that agree on those (and may
differ in the declared primary material or the annotation contents) receive
the same safety factor and the same failure probability. -/
theorem C9_simplified_branch_ignores_material (bd1 bd2 : BuildingData)
    (anns1 anns2 : List Annotation) (y : Int)
    (hf : bd1.number_of_floors = bd2.number_of_floors)
    (hy : bd1.year_built = bd2.year_built)
    (hn : anns1.length = anns2.length) :
    (_simplified_fea_analysis bd1 anns1 y).safety_factor
      = (_simplified_fea_analysis bd2 anns2 y).safety_factor
    ∧ (_simplified_fea_analysis bd1 anns1 y).failure_probability
      = (_simplified_fea_analysis bd2 anns2 y).failure_probability := by
  have hs : simplifiedStress bd1 anns1.length y = simplifiedStress bd2 anns2.length y := by
    unfold simplifiedStress
    rw [hf, hy, hn]
  constructor
  · rw [sfa_safety_factor_eq, sfa_safety_factor_eq, hs]
  · show min 1 (max 0 ((simplifiedStress bd1 anns1.length y - 20) / 10))
      = min 1 (max 0 ((simplifiedStress bd2 anns2.length y - 20) / 10))
    rw [hs]

theorem C9_simplified_branch_ignores_material_witness :
    bdConcrete.number_of_floors = bdSteel.number_of_floors
    ∧ bdConcrete.year_built = bdSteel.year_built
    ∧ ([] : List Annotation).length = ([] : List Annotation).length
    ∧ ((_simplified_fea_analysis bdConcrete [] 2026).safety_factor
        = (_simplified_fea_analysis bdSteel [] 2026).safety_factor
      ∧ (_simplified_fea_analysis bdConcrete [] 2026).failure_probability
        = (_simplified_fea_analysis bdSteel [] 2026).failure_probability) :=
  ⟨by decide, by decide, rfl,
   C9_simplified_branch_ignores_material bdConcrete bdSteel [] [] 2026
     (by decide) (by decide) rfl⟩

theorem assessment_score_decomp (bd : BuildingData) (anns : List Annotation)
    (y : Int) :
    (assessment bd anns y).risk_score
      = ageContribution (y - bd.year_built)
        + damageContribution bd.damage_types.length
        + sfContribution (_simplified_fea_analysis bd anns y).safety_factor
        + ftContribution (_simplified_collapse_simulation bd anns).failure_time := rfl

/-- C5: appending one damage annotation to a fixed descriptor never raises the
safety factor and never lowers the risk score. -/
theorem C5_monotone_in_annotations (bd : BuildingData) (anns : List Annotation)
    (a : Annotation) (y : Int) (h : 1 ≤ bd.number_of_floors) :
    (_simplified_fea_analysis bd (anns ++ [a]) y).safety_factor
      ≤ (_simplified_fea_analysis bd anns y).safety_factor
    ∧ (assessment bd anns y).risk_score
      ≤ (assessment bd (anns ++ [a]) y).risk_score := by
  have hl : (anns ++ [a]).length = anns.length + 1 := by simp
  have hs := simplifiedStress_pos bd anns.length y h
  have hs' := simplifiedStress_pos bd (anns.length + 1) y h
  have hle := simplifiedStress_succ_le bd anns.length y
  have hsf : (_simplified_fea_analysis bd (anns ++ [a]) y).safety_factor
      ≤ (_simplified_fea_analysis bd anns y).safety_factor := by
    rw [sfa_safety_factor_eq, sfa_safety_factor_eq, hl]
    unfold claimedSafetyFactor
    rw [if_pos hs', if_pos hs]
    exact WithTop.coe_le_coe.mpr (div_le_div_of_nonneg_left (by norm_num) hs hle)
  have hft : (_simplified_collapse_simulation bd (anns ++ [a])).failure_time
      ≤ (_simplified_collapse_simulation bd anns).failure_time := by
    rw [collapse_failure_time_eq, collapse_failure_time_eq, hl]
    apply max_le_max le_rfl
    push_cast
    linarith
  refine ⟨hsf, ?_⟩
  rw [assessment_score_decomp, assessment_score_decomp]
  have h1 := sfContribution_anti hsf
  have h2 := ftContribution_anti hft
  exact Nat.add_le_add (Nat.add_le_add (Nat.add_le_add le_rfl le_rfl) h1) h2

theorem C5_monotone_in_annotations_witness :
    1 ≤ bdConcrete.number_of_floors
    ∧ ((_simplified_fea_analysis bdConcrete ([] ++ [⟨"cracks", 100, 200⟩]) 2026).safety_factor
        ≤ (_simplified_fea_analysis bdConcrete [] 2026).safety_factor
      ∧ (assessment bdConcrete [] 2026).risk_score
        ≤ (assessment bdConcrete ([] ++ [⟨"cracks", 100, 200⟩]) 2026).risk_score) :=
  ⟨by decide, C5_monotone_in_annotations bdConcrete [] ⟨"cracks", 100, 200⟩ 2026 (by decide)⟩

/-- Scenario C descriptor: industrial, 10 floors, steel, built 1960, one
partial-collapse damage type. -/
def bdC8 : BuildingData :=
  { building_type := "industrial", number_of_floors := 10,
    primary_material := "steel", year_built := 1960,
    damage_types := ["partial_collapse"] }

/-- Scenario C annotation. -/
def annC8 : Annotation := ⟨"partial_collapse", 100, 200⟩

theorem stressC8 : simplifiedStress bdC8 1 2026 = 3000/17 := by
  unfold simplifiedStress age_factor bdC8
  norm_num

theorem sfC8 : (_simplified_fea_analysis bdC8 [annC8] 2026).safety_factor
    = ((17/100 : ℚ) : WithTop ℚ) := by
  rw [sfa_safety_factor_eq]
  have hl : ([annC8]).length = 1 := rfl
  rw [hl, stressC8]
  unfold claimedSafetyFactor
  rw [if_pos (by norm_num)]
  rw [show (30 : ℚ) / (3000/17) = 17/100 by norm_num]

theorem ftC8 : (_simplified_collapse_simulation bdC8 [annC8]).failure_time = 8 := by
  rw [collapse_failure_time_eq]
  norm_num

theorem scoreC8 : (assessment bdC8 [annC8] 2026).risk_score = 60 := by
  rw [assessment_score_decomp, sfC8, ftC8]
  norm_num [ageContribution, damageContribution, sfContribution, ftContribution, bdC8]

theorem levelC8 : (assessment bdC8 [annC8] 2026).risk_level = "high" := by
  have hlev : (assessment bdC8 [annC8] 2026).risk_level
      = levelOf ((assessment bdC8 [annC8] 2026).risk_score) := rfl
  rw [hlev, scoreC8]
  norm_num [levelOf]

/-- C8 counterexample: the Scenario C input produces risk level "high", not
"critical", because the one annotation only brings the failure time to 8 s
(failure-time contribution 0) and the score to 60. -/
theorem C8_counterexample :
    (assessment bdC8 [annC8] 2026).risk_level ≠ "critical" := by
  rw [levelC8]
  simp

/-- C8 amended: the Scenario C input (assessed in 2026) yields risk level
"high" with score 60 (age 30 + damage 10 + safety factor 20 + failure time 0);
the failure time is 8 s, so the failure-time contribution is 0, its minimum,
not near its maximum. -/
theorem C8_scenario_c_risk_high :
    (assessment bdC8 [annC8] 2026).risk_level = "high"
    ∧ (assessment bdC8 [annC8] 2026).risk_score = 60
    ∧ (_simplified_collapse_simulation bdC8 [annC8]).failure_time = 8
    ∧ ftContribution ((_simplified_collapse_simulation bdC8 [annC8]).failure_time) = 0 := by
  refine ⟨levelC8, scoreC8, ftC8, ?_⟩
  rw [ftC8]
  norm_num [ftContribution]

/-- Environment of a first invocation. -/
def envA : Env :=
  { nowYear := 2026, reportTime := "2026-10-12 10:00:00",
    generatedAt := "2026-10-12T10:00:00.000001" }

/-- Environment of a second, later invocation in the same year. -/
def envB : Env :=
  { nowYear := 2026, reportTime := "2026-10-12 10:00:05",
    generatedAt := "2026-10-12T10:00:05.000002" }

/-- C1: two independent invocations on the same descriptor and annotation list
are not bit-identical: the returned record embeds the invocation wall-clock
stamp in its `generated_at` field (and in the report), and in the FEniCS
branch the stress distribution is the raw uniform-random draw list, for which
two distinct valid draws exist for one and the same input. -/
theorem C1_two_invocations_differ :
    analyze_structural_damage bdConcrete [] envA
      ≠ analyze_structural_damage bdConcrete [] envB
    ∧ uniformStressDraws (base_properties "concrete") (List.replicate 100 0)
    ∧ uniformStressDraws (base_properties "concrete") (List.replicate 100 1)
    ∧ _calculate_stress (base_properties "concrete") (List.replicate 100 0)
      ≠ _calculate_stress (base_properties "concrete") (List.replicate 100 1) := by
  refine ⟨?_, ?_, ?_, ?_⟩
  · intro hEq
    have hg := congrArg AnalysisResult.generated_at hEq
    simp [analyze_structural_damage, envA, envB] at hg
  · unfold uniformStressDraws
    refine ⟨by simp, ?_⟩
    intro x hx
    rw [List.eq_of_mem_replicate hx]
    norm_num [base_properties]
  · unfold uniformStressDraws
    refine ⟨by simp, ?_⟩
    intro x hx
    rw [List.eq_of_mem_replicate hx]
    norm_num [base_properties]
  · intro hEq
    have h0 := congrArg (fun l => l.headD 0) hEq
    norm_num [_calculate_stress, List.replicate_succ] at h0

end PhysicsSim
